import Mathlib

/-!
Shallow embedding of the country-quest-backend server (src/server.js).

The server keeps a map of GameRoom objects, each holding two fixed player
slots, a host pointer, a ready set, settings, and round state driven by a
one-second interval timer.  We embed the room state and every socket
handler that mutates it as pure Lean functions.  Nondeterminism from
Math.random is made explicit through a pick parameter, and the external
country catalog (CountriesAndCities.js, not part of the core) is passed
as a list parameter.  The interval handle stored in room.interval is
modelled as a Bool saying whether a live interval is armed; clearInterval
sets it to false.  A JavaScript TypeError escaping a handler is modelled
by the thrown constructor of HResult, carrying the room state as left by
the mutations that ran before the throw.
-/

set_option autoImplicit false

abbrev SocketId := String

/-- Entries of COUNTRIES_AND_CITIES; server.js reads only the country
name and the region fields, so only those are embedded. -/
structure Country where
  country : String
  region : String
deriving Repr, DecidableEq

/-- The 8 clue keys of DEFAULT_CLUE_SCHEDULE in server.js. -/
inductive ClueKey where
  | region
  | main_export
  | population
  | currency
  | language
  | fun_fact
  | cities
  | flag
deriving Repr, DecidableEq

/-- The settings.enableClues object: a fixed-key record of 8 booleans. -/
structure EnableClues where
  region : Bool
  main_export : Bool
  population : Bool
  currency : Bool
  language : Bool
  fun_fact : Bool
  cities : Bool
  flag : Bool
deriving Repr, DecidableEq

def EnableClues.get (e : EnableClues) : ClueKey → Bool
  | .region => e.region
  | .main_export => e.main_export
  | .population => e.population
  | .currency => e.currency
  | .language => e.language
  | .fun_fact => e.fun_fact
  | .cities => e.cities
  | .flag => e.flag

/-- The settings payload of submit_settings.  maxRounds is a Nat where 0
models both an absent field and an explicit 0 (both falsy in the
JavaScript check room.settings.maxRounds). -/
structure Settings where
  enableClues : EnableClues
  enabledContinents : List String
  cluesPerRound : Nat
  clueTime : Int
  maxRounds : Nat
deriving Repr, DecidableEq

structure Scores where
  p1 : Nat
  p2 : Nat
deriving Repr, DecidableEq

/-- The GameRoom class state.  players1 and players2 are the two fixed
slots (the JS object with keys 1 and 2); interval models whether a live
setInterval timer is armed; timer starts as null in JS and is set from
settings before the game loop reads it, so Int with initial 0 is used.
createdAt is only read by the registry sweep and is omitted. -/
structure GameRoom where
  roomId : String
  players1 : Option SocketId := none
  players2 : Option SocketId := none
  host : Option SocketId := none
  gameActive : Bool := false
  scores : Scores := ⟨0, 0⟩
  currentCountry : Option Country := none
  clueIndex : Nat := 0
  timer : Int := 0
  interval : Bool := false
  readyPlayers : List SocketId := []
  settings : Option Settings := none
  clueSchedule : List (ClueKey × String) := []
  currentRound : Nat := 1
deriving Repr, DecidableEq

def MAX_PLAYERS : Nat := 2

/-- JS Set.add: append if not yet present (insertion order preserved). -/
def addReady (l : List SocketId) (s : SocketId) : List SocketId :=
  if s ∈ l then l else l ++ [s]

/-- JS Set.delete. -/
def eraseReady (l : List SocketId) (s : SocketId) : List SocketId :=
  l.filter (fun x => x ≠ s)

/-- GameRoom.addPlayer: null when both slots occupied, otherwise fill the
lowest empty slot and claim the host pointer when it is unset.  Returns
the updated room and the assigned slot number. -/
def GameRoom.addPlayer (r : GameRoom) (s : SocketId) : Option (GameRoom × Nat) :=
  if r.players1.isSome ∧ r.players2.isSome then none
  else
    let p :=
      if r.players1.isNone then ({ r with players1 := some s }, 1)
      else ({ r with players2 := some s }, 2)
    let r2 := if p.1.host.isNone then { p.1 with host := some s } else p.1
    some (r2, p.2)

/-- GameRoom.removePlayer: clear the slot holding s (slot 1 checked
first), drop s from the ready set, and migrate the host pointer to the
other occupant (or null) when s was host. -/
def GameRoom.removePlayer (r : GameRoom) (s : SocketId) : GameRoom :=
  let numToRemove : Option Nat :=
    if r.players1 = some s then some 1
    else if r.players2 = some s then some 2
    else none
  match numToRemove with
  | none => r
  | some n =>
    let r1 := if n = 1 then { r with players1 := none } else { r with players2 := none }
    let r2 := { r1 with readyPlayers := eraseReady r1.readyPlayers s }
    if r2.host = some s then
      let otherOcc := if n = 1 then r2.players2 else r2.players1
      match otherOcc with
      | some o => { r2 with host := some o }
      | none => { r2 with host := none }
    else r2

def GameRoom.getPlayerCount (r : GameRoom) : Nat :=
  (if r.players1.isSome then 1 else 0) + (if r.players2.isSome then 1 else 0)

/-- GameRoom.setReady: unconditionally add or delete s in the ready set
(the class method performs no occupancy check). -/
def GameRoom.setReady (r : GameRoom) (s : SocketId) (isReady : Bool) : GameRoom :=
  if isReady then { r with readyPlayers := addReady r.readyPlayers s }
  else { r with readyPlayers := eraseReady r.readyPlayers s }

def GameRoom.areAllReady (r : GameRoom) : Bool :=
  r.players1.isSome && r.players2.isSome && r.readyPlayers.length == 2

def DEFAULT_CLUE_SCHEDULE : List (ClueKey × String) :=
  [(.region, "Region"), (.main_export, "Main Export"), (.population, "Population"),
   (.currency, "Currency"), (.language, "Language"), (.fun_fact, "Fun Fact"),
   (.cities, "Major Cities"), (.flag, "Flag")]

/-- The clue schedule derived in GameRoom.setSettings: filter the master
list by the enabled keys, then slice(0, cluesPerRound). -/
def computeClueSchedule (s : Settings) : List (ClueKey × String) :=
  (DEFAULT_CLUE_SCHEDULE.filter (fun c => s.enableClues.get c.1)).take s.cluesPerRound

/-- GameRoom.setSettings. -/
def GameRoom.setSettings (r : GameRoom) (s : Settings) : GameRoom :=
  { r with settings := some s, timer := s.clueTime, clueSchedule := computeClueSchedule s }

/-- GameRoom.getRandomCountry, with the catalog and the random draw made
explicit.  pick stands for Math.floor(Math.random() * length); the
result is filteredCountries[pick mod length] so that any pick denotes a
valid draw.  Returns none only when the catalog itself is empty. -/
def GameRoom.getRandomCountry (r : GameRoom) (catalog : List Country) (pick : Nat) : Option Country :=
  let filteredCountries :=
    match r.settings with
    | some s =>
      if s.enabledContinents.length > 0 then
        if "All" ∈ s.enabledContinents then catalog
        else catalog.filter (fun c => c.region ∈ s.enabledContinents)
      else catalog
    | none => catalog
  let filteredCountries := if filteredCountries.length = 0 then catalog else filteredCountries
  filteredCountries.get? (pick % filteredCountries.length)

/-- GameRoom.startNewRound.  The JS method sets currentCountry and
clueIndex, then reads this.settings.clueTime: when settings is null that
read throws a TypeError, so the error case carries the partially mutated
room (currentCountry and clueIndex already written). -/
def GameRoom.startNewRound (r : GameRoom) (catalog : List Country) (pick : Nat) :
    Except GameRoom GameRoom :=
  let r1 := { r with currentCountry := r.getRandomCountry catalog pick, clueIndex := 0 }
  match r1.settings with
  | none => .error r1
  | some s => .ok { r1 with timer := s.clueTime, gameActive := true, readyPlayers := [] }

/-- GameRoom.stopGame: clear the active flag and cancel the interval
timer when one is armed. -/
def GameRoom.stopGame (r : GameRoom) : GameRoom :=
  let r1 := { r with gameActive := false }
  if r1.interval then { r1 with interval := false } else r1


/-- Outbound socket emissions, named after the events of server.js.
errorMessage and playerAssigned target one socket; opponentGuess models
socket.to(roomId), delivery to every room member except the excluded
sender; the rest are io.to(roomId) broadcasts. -/
inductive Emit where
  | errorMessage (toSocket : SocketId) (msg : String)
  | playerAssigned (toSocket : SocketId) (num : Nat) (isHost : Bool)
  | readyStateUpdate (p1 : Bool) (p2 : Bool)
  | roomReady
  | settingsUpdated
  | gameStarted (countryData : Option Country) (clueIndex : Nat)
  | timerUpdate (t : Int)
  | nextClue (i : Nat)
  | gameOver (winner : String) (correctCountry : Option Country) (scores : Scores)
      (finalGame : Bool)
  | opponentGuess (excludedSender : SocketId) (guess : String)
  | playerLeft
  | hostMigration (toSocket : SocketId)
deriving Repr, DecidableEq

/-- Result of running one handler or timer callback: either the new room
state with the list of emissions, or a thrown JavaScript error escaping
the handler, carrying the room state at the moment of the throw. -/
inductive HResult where
  | ok (r : GameRoom) (events : List Emit)
  | thrown (r : GameRoom)
deriving Repr, DecidableEq

def HResult.room : HResult → GameRoom
  | .ok r _ => r
  | .thrown r => r

def HResult.events : HResult → List Emit
  | .ok _ es => es
  | .thrown _ => []

/-- The per-slot booleans of the ready_state_update broadcast. -/
def readyFlags (r : GameRoom) : Bool × Bool :=
  (match r.players1 with
   | some p => r.readyPlayers.contains p
   | none => false,
   match r.players2 with
   | some p => r.readyPlayers.contains p
   | none => false)

/-- The join_room handler, given the located (or freshly created) room. -/
def joinRoom (room : GameRoom) (s : SocketId) : GameRoom × List Emit :=
  if room.getPlayerCount ≥ MAX_PLAYERS then
    (room, [Emit.errorMessage s "Room is full!"])
  else
    match room.addPlayer s with
    | none => (room, [])
    | some (r1, num) =>
      let es := [Emit.playerAssigned s num (r1.host == some s),
                 Emit.readyStateUpdate (readyFlags r1).1 (readyFlags r1).2]
      if r1.getPlayerCount = MAX_PLAYERS then (r1, es ++ [Emit.roomReady]) else (r1, es)

def countEnabledClues (e : EnableClues) : Nat :=
  [e.region, e.main_export, e.population, e.currency, e.language,
   e.fun_fact, e.cities, e.flag].count true

/-- The submit_settings handler.  A malformed payload (the JS null
checks on settings, settings.enableClues, settings.enabledContinents) is
modelled as the none case. -/
def submitSettings (room : GameRoom) (s : SocketId) (payload : Option Settings) :
    GameRoom × List Emit :=
  if room.host ≠ some s then
    (room, [Emit.errorMessage s "Only the host can set game settings"])
  else
    match payload with
    | none => (room, [Emit.errorMessage s "Invalid settings"])
    | some st =>
      if countEnabledClues st.enableClues < 1 then
        (room, [Emit.errorMessage s "Please select at least 1 clue"])
      else if st.enabledContinents.length = 0 then
        (room, [Emit.errorMessage s "Please select at least one continent"])
      else
        (room.setSettings st, [Emit.settingsUpdated])

/-- The startGameLoop helper: stop any prior game, start a new round,
broadcast game_started and arm the interval timer. -/
def startGameLoop (catalog : List Country) (pick : Nat) (room : GameRoom) : HResult :=
  match room.stopGame.startNewRound catalog pick with
  | .error rPartial => .thrown rPartial
  | .ok r1 =>
    .ok { r1 with interval := true } [Emit.gameStarted r1.currentCountry r1.clueIndex]

/-- One firing of the setInterval callback armed by startGameLoop. -/
def tick (room : GameRoom) : HResult :=
  if room.gameActive = false then
    .ok { room with interval := false } []
  else
    let room1 := { room with timer := room.timer - 1 }
    let es := [Emit.timerUpdate room1.timer]
    if room1.timer ≤ 0 then
      if (room1.clueIndex : Int) < (room1.clueSchedule.length : Int) - 1 then
        let room2 := { room1 with clueIndex := room1.clueIndex + 1 }
        match room2.settings with
        | none => .thrown room2
        | some s =>
          .ok { room2 with timer := s.clueTime } (es ++ [Emit.nextClue room2.clueIndex])
      else
        match room1.settings with
        | none => .thrown room1
        | some s =>
          if s.maxRounds ≠ 0 ∧ room1.currentRound ≥ s.maxRounds then
            let r2 := room1.stopGame
            .ok r2 (es ++ [Emit.gameOver "draw" r2.currentCountry r2.scores true])
          else
            let room2 := { room1 with currentRound := room1.currentRound + 1 }
            let r2 := room2.stopGame
            .ok r2 (es ++ [Emit.gameOver "draw" r2.currentCountry r2.scores false])
    else
      .ok room1 es

/-- The toggle_ready handler. -/
def toggleReady (catalog : List Country) (pick : Nat) (room : GameRoom)
    (s : SocketId) (isReady : Bool) : HResult :=
  if room.host = some s ∧ room.settings = none then
    .ok room [Emit.errorMessage s "Please set game settings first"]
  else
    let r1 := room.setReady s isReady
    let readyE := Emit.readyStateUpdate (readyFlags r1).1 (readyFlags r1).2
    if r1.areAllReady then
      match startGameLoop catalog pick r1 with
      | .thrown r => .thrown r
      | .ok r es => .ok r (readyE :: es)
    else
      .ok r1 [readyE]

/-- The restart_game handler. -/
def restartGame (catalog : List Country) (pick : Nat) (room : GameRoom)
    (s : SocketId) : HResult :=
  if room.host ≠ some s then
    .ok room [Emit.errorMessage s "Only the Host can restart."]
  else
    startGameLoop catalog pick room

/-- Lowercase, then delete every character that is not an ASCII
lowercase letter or digit (the toLowerCase + regex replace of
send_guess, modelled per character: toLowerCase is Char.toLower on
each character, the regex keeps exactly the a-z and 0-9 range). -/
def normalizeStr (s : String) : String :=
  String.mk ((s.toList.map Char.toLower).filter (fun c => c.isLower || c.isDigit))

/-- The send_guess handler.  The winning slot is chosen from the
playerNum field of the payload; a null currentCountry under an active
game would throw. -/
def sendGuess (room : GameRoom) (sender : SocketId) (guess : String)
    (playerNum : Nat) : HResult :=
  if room.gameActive = false then .ok room []
  else
    match room.currentCountry with
    | none => .thrown room
    | some c =>
      let target := normalizeStr c.country
      let attempt := normalizeStr guess
      if attempt = target then
        let winner := if playerNum = 1 then "player1" else "player2"
        let room1 :=
          if winner = "player1" then
            { room with scores := { room.scores with p1 := room.scores.p1 + 1 } }
          else
            { room with scores := { room.scores with p2 := room.scores.p2 + 1 } }
        let r2 := room1.stopGame
        .ok r2 [Emit.gameOver winner r2.currentCountry r2.scores false]
      else
        .ok room [Emit.opponentGuess sender guess]

/-- The disconnect handler, restricted to one room that may hold the
departing socket (the JS loops over all rooms; registry deletion of the
emptied room is outside the room state). -/
def handleDisconnect (room : GameRoom) (s : SocketId) : GameRoom × List Emit :=
  if room.players1 = some s ∨ room.players2 = some s then
    let r1 := room.removePlayer s
    let migrationEs :=
      if r1.players1.isSome ∨ r1.players2.isSome then
        let remaining := if r1.players1.isSome then r1.players1 else r1.players2
        match remaining with
        | some rem => if r1.host = some rem then [Emit.hostMigration rem] else []
        | none => []
      else []
    let readyE := Emit.readyStateUpdate (readyFlags r1).1 (readyFlags r1).2
    let r2 := if r1.getPlayerCount = 0 then r1.stopGame else r1
    (r2, Emit.playerLeft :: (migrationEs ++ [readyE]))
  else (room, [])

/-- The connection handles of the occupied slots. -/
def occupiedHandles (r : GameRoom) : List SocketId :=
  r.players1.toList ++ r.players2.toList

/-- The host pointer is unset or names an occupant. -/
def hostInv (r : GameRoom) : Prop :=
  ∀ x, r.host = some x → r.players1 = some x ∨ r.players2 = some x

/-- Room state of a startNewRound result, whether it returned or threw. -/
def exRoom : Except GameRoom GameRoom → GameRoom
  | .error r => r
  | .ok r => r

-- Concrete fixtures used by witnesses and counterexamples.

def demoCatalog : List Country := [⟨"France", "Europe"⟩]

def oneClueOn : EnableClues := ⟨true, false, false, false, false, false, false, false⟩

def demoSettings : Settings := ⟨oneClueOn, ["All"], 1, 15, 1⟩

def c1Room : GameRoom := { roomId := "R1", gameActive := false, interval := true }

def c2Room : GameRoom := { roomId := "R2", players1 := some "A", host := some "A" }

def c3Room : GameRoom := (joinRoom (joinRoom { roomId := "R3" } "A").1 "B").1

def c3WRoom : GameRoom := { roomId := "R3w" }

def c4Room : GameRoom := { roomId := "R4", players1 := some "A", host := some "A" }

def zeroSliceSettings : Settings := ⟨oneClueOn, ["All"], 0, 15, 0⟩

def c4WSettings : Settings := ⟨oneClueOn, ["All"], 2, 15, 0⟩

def c5Room : GameRoom := { roomId := "R5", players1 := some "A", host := some "A" }

def c5WRoom : GameRoom :=
  { roomId := "R5w", players1 := some "A", players2 := some "B", host := some "A",
    settings := some demoSettings }

def c6Room : GameRoom :=
  { roomId := "R6", gameActive := true, interval := true, timer := 1,
    clueIndex := 0, clueSchedule := [(ClueKey.region, "Region")], currentRound := 1,
    settings := some demoSettings, currentCountry := some ⟨"France", "Europe"⟩ }

def c6WRoom : GameRoom :=
  { c6Room with settings := some ⟨oneClueOn, ["All"], 1, 15, 0⟩ }

def c7Room : GameRoom :=
  { roomId := "R7", players1 := some "A", players2 := some "B", host := some "A",
    gameActive := true, interval := true, timer := 9,
    clueSchedule := [(ClueKey.region, "Region")],
    settings := some demoSettings, currentCountry := some ⟨"France", "Europe"⟩ }

def c8Room : GameRoom := { roomId := "R8", players1 := some "A", host := some "A" }

def c10Room : GameRoom :=
  { roomId := "Ra", players1 := some "A", players2 := some "B", host := some "A",
    gameActive := true, timer := 9, settings := some demoSettings,
    currentCountry := some ⟨"France", "Europe"⟩ }

-- Helper lemmas.

theorem stopGame_eq (r : GameRoom) :
    r.stopGame = { r with gameActive := false, interval := false } := by
  unfold GameRoom.stopGame
  cases r with
  | mk roomId p1 p2 host ga sc cc ci t iv rp st cs cr =>
    dsimp only
    cases iv <;> simp

theorem hostInv_of_fields {r r' : GameRoom} (hp1 : r'.players1 = r.players1)
    (hp2 : r'.players2 = r.players2) (hh : r'.host = r.host)
    (h : hostInv r) : hostInv r' := by
  intro x hx
  rw [hp1, hp2]
  exact h x (hh ▸ hx)

theorem mem_addReady (l : List SocketId) (s : SocketId) : s ∈ addReady l s := by
  unfold addReady
  split
  · assumption
  · simp

theorem startNewRound_fields (r : GameRoom) (catalog : List Country) (pick : Nat) :
    (exRoom (r.startNewRound catalog pick)).players1 = r.players1 ∧
    (exRoom (r.startNewRound catalog pick)).players2 = r.players2 ∧
    (exRoom (r.startNewRound catalog pick)).host = r.host := by
  unfold GameRoom.startNewRound
  cases hs : r.settings <;> simp [exRoom, hs]

theorem startGameLoop_fields (catalog : List Country) (pick : Nat) (r : GameRoom) :
    ((startGameLoop catalog pick r).room).players1 = r.players1 ∧
    ((startGameLoop catalog pick r).room).players2 = r.players2 ∧
    ((startGameLoop catalog pick r).room).host = r.host := by
  have h := startNewRound_fields r.stopGame catalog pick
  rw [stopGame_eq] at h
  simp only at h
  unfold startGameLoop
  cases hsn : (GameRoom.stopGame r).startNewRound catalog pick with
  | error x =>
    rw [stopGame_eq] at hsn
    rw [hsn] at h
    simpa [HResult.room, exRoom] using h
  | ok x =>
    rw [stopGame_eq] at hsn
    rw [hsn] at h
    simp [exRoom] at h
    simp [HResult.room, h]

theorem tick_fields (r : GameRoom) :
    ((tick r).room).players1 = r.players1 ∧
    ((tick r).room).players2 = r.players2 ∧
    ((tick r).room).host = r.host := by
  unfold tick
  dsimp only
  repeat' split
  all_goals simp [HResult.room, stopGame_eq]

theorem sendGuess_fields (r : GameRoom) (sender : SocketId) (g : String) (p : Nat) :
    ((sendGuess r sender g p).room).players1 = r.players1 ∧
    ((sendGuess r sender g p).room).players2 = r.players2 ∧
    ((sendGuess r sender g p).room).host = r.host := by
  unfold sendGuess
  dsimp only
  repeat' split
  all_goals simp [HResult.room, stopGame_eq]

theorem toggleReady_fields (catalog : List Country) (pick : Nat) (r : GameRoom)
    (s : SocketId) (b : Bool) :
    ((toggleReady catalog pick r s b).room).players1 = r.players1 ∧
    ((toggleReady catalog pick r s b).room).players2 = r.players2 ∧
    ((toggleReady catalog pick r s b).room).host = r.host := by
  have hsr : (r.setReady s b).players1 = r.players1 ∧ (r.setReady s b).players2 = r.players2 ∧
      (r.setReady s b).host = r.host := by
    unfold GameRoom.setReady
    cases b <;> simp
  have hsl := startGameLoop_fields catalog pick (r.setReady s b)
  unfold toggleReady
  dsimp only
  repeat' split
  · simp [HResult.room]
  · rename_i heq
    rw [heq] at hsl
    simp [HResult.room] at hsl ⊢
    exact ⟨hsl.1.trans hsr.1, hsl.2.1.trans hsr.2.1, hsl.2.2.trans hsr.2.2⟩
  · rename_i heq
    rw [heq] at hsl
    simp [HResult.room] at hsl ⊢
    exact ⟨hsl.1.trans hsr.1, hsl.2.1.trans hsr.2.1, hsl.2.2.trans hsr.2.2⟩
  · simpa [HResult.room] using hsr

theorem restartGame_fields (catalog : List Country) (pick : Nat) (r : GameRoom)
    (s : SocketId) :
    ((restartGame catalog pick r s).room).players1 = r.players1 ∧
    ((restartGame catalog pick r s).room).players2 = r.players2 ∧
    ((restartGame catalog pick r s).room).host = r.host := by
  unfold restartGame
  split
  · simp [HResult.room]
  · exact startGameLoop_fields catalog pick r

theorem submitSettings_fields (r : GameRoom) (s : SocketId) (payload : Option Settings) :
    ((submitSettings r s payload).1).players1 = r.players1 ∧
    ((submitSettings r s payload).1).players2 = r.players2 ∧
    ((submitSettings r s payload).1).host = r.host := by
  unfold submitSettings GameRoom.setSettings
  repeat' split
  all_goals simp
theorem hostInv_addPlayer (r : GameRoom) (s : SocketId) (h : hostInv r) :
    ∀ r' n, r.addPlayer s = some (r', n) → hostInv r' := by
  intro r' n hadd
  unfold GameRoom.addPlayer at hadd
  cases hp1 : r.players1 <;> cases hp2 : r.players2 <;> cases hh : r.host <;>
    simp [hp1, hp2, hh] at hadd
  case none.none.none =>
    obtain ⟨rfl, -⟩ := hadd
    intro x hx
    simp_all
  case none.none.some h0 =>
    obtain ⟨rfl, -⟩ := hadd
    intro x hx
    rcases h x (hh.trans hx) with h1 | h2
    · rw [hp1] at h1
      cases h1
    · rw [hp2] at h2
      cases h2
  case none.some.none b =>
    obtain ⟨rfl, -⟩ := hadd
    intro x hx
    simp_all
  case none.some.some b h0 =>
    obtain ⟨rfl, -⟩ := hadd
    intro x hx
    rcases h x (hh.trans hx) with h1 | h2
    · rw [hp1] at h1
      cases h1
    · right
      rw [hp2] at h2
      simpa using h2
  case some.none.none a =>
    obtain ⟨rfl, -⟩ := hadd
    intro x hx
    simp_all
  case some.none.some a h0 =>
    obtain ⟨rfl, -⟩ := hadd
    intro x hx
    rcases h x (hh.trans hx) with h1 | h2
    · left
      rw [hp1] at h1
      simpa using h1
    · rw [hp2] at h2
      cases h2

theorem hostInv_removePlayer (r : GameRoom) (s : SocketId) (h : hostInv r) :
    hostInv (r.removePlayer s) := by
  intro x hx
  by_cases hp1 : r.players1 = some s
  · by_cases hhost : r.host = some s
    · cases hp2 : r.players2 with
      | none =>
        simp [GameRoom.removePlayer, hp1, hhost, hp2] at hx
      | some b =>
        simp only [GameRoom.removePlayer, hp1, hhost, hp2, if_true, ite_true] at hx ⊢
        simp at hx ⊢
        exact hx
    · simp only [GameRoom.removePlayer, hp1, hhost, if_true, ite_true, if_false, ite_false] at hx ⊢
      simp [hhost] at hx ⊢
      rcases h x hx with h1 | h2
      · exfalso
        rw [hp1] at h1
        injection h1 with h1e
        rw [← h1e] at hx
        exact hhost hx
      · exact h2
  · by_cases hp2 : r.players2 = some s
    · by_cases hhost : r.host = some s
      · cases hpp : r.players1 with
        | none =>
          simp [GameRoom.removePlayer, hp1, hp2, hhost, hpp] at hx
        | some a =>
          have has : ¬a = s := by
            intro has
            exact hp1 (by rw [hpp, has])
          simp [GameRoom.removePlayer, hp2, hhost, hpp, has] at hx ⊢
          exact hx
      · simp only [GameRoom.removePlayer, hp1, hp2, hhost] at hx ⊢
        simp [hp1, hhost] at hx ⊢
        rcases h x hx with h1 | h2
        · exact h1
        · exfalso
          rw [hp2] at h2
          injection h2 with h2e
          rw [← h2e] at hx
          exact hhost hx
    · simp only [GameRoom.removePlayer, hp1, hp2] at hx ⊢
      simp [hp1, hp2] at hx ⊢
      exact h x hx

theorem hostInv_joinRoom (r : GameRoom) (s : SocketId) (h : hostInv r) :
    hostInv (joinRoom r s).1 := by
  unfold joinRoom
  split
  · exact h
  · split
    · exact h
    · rename_i r1 num heq
      have h1 := hostInv_addPlayer r s h r1 num heq
      split <;> exact h1

theorem hostInv_handleDisconnect (r : GameRoom) (s : SocketId) (h : hostInv r) :
    hostInv (handleDisconnect r s).1 := by
  unfold handleDisconnect
  split
  · dsimp only
    have h1 := hostInv_removePlayer r s h
    split
    · exact hostInv_of_fields (by simp [stopGame_eq]) (by simp [stopGame_eq])
        (by simp [stopGame_eq]) h1
    · exact h1
  · exact h

-- Claim theorems.

/-- C1: stopGame leaves the session inactive with the pending interval
cancelled, a second stopGame is a no-op (idempotence, no further side
effects), and a timer callback that observes an inactive session only
cancels its own interval: it emits no event (in particular no clue
transition) and leaves every other state field of the room unchanged, so
no round state is mutated by a stale callback until a new round starts. -/
theorem stop_cancels_timer_and_callbacks_check_active (r : GameRoom) :
    r.stopGame.gameActive = false ∧
    r.stopGame.interval = false ∧
    r.stopGame.stopGame = r.stopGame ∧
    (r.gameActive = false → tick r = .ok { r with interval := false } []) := by
  refine ⟨?_, ?_, ?_, ?_⟩
  · rw [stopGame_eq]
  · rw [stopGame_eq]
  · rw [stopGame_eq, stopGame_eq]
  · intro hact
    unfold tick
    rw [hact]
    simp

/-- C1 witness: a stopped room with a stale armed interval; the callback
fires, observes the inactive flag, and only disarms itself. -/
theorem stop_cancels_timer_witness :
    tick c1Room = .ok { c1Room with interval := false } [] :=
  (stop_cancels_timer_and_callbacks_check_active c1Room).2.2.2 rfl

/-- C2: the restart_game handler invoked by the host of a room whose
settings were never submitted does not report an error: startNewRound
reads settings.clueTime on null and the TypeError escapes the handler
boundary, after currentCountry was already overwritten (partial
mutation).  This contradicts the claim that restart always either starts
a round or reports an error for every prior session state. -/
theorem restart_by_host_without_config_throws :
    restartGame demoCatalog 0 c2Room "A" =
      .thrown { c2Room with currentCountry := some ⟨"France", "Europe"⟩ } ∧
    (restartGame demoCatalog 0 c2Room "A").room ≠ c2Room := by
  constructor
  · rfl
  · decide

/-- C3 counterexample: starting from a room reached by two legitimate
joins, a toggle_ready from the non-occupant handle C lands C in the
ready set, so the ready set is not a subset of the occupied handles; and
a repeated join of handle A seats A in both slots of one session. -/
theorem ready_set_and_slot_invariants_fail :
    ("C" ∈ ((toggleReady demoCatalog 0 c3Room "C" true).room).readyPlayers ∧
     "C" ∉ occupiedHandles ((toggleReady demoCatalog 0 c3Room "C" true).room)) ∧
    ((joinRoom (joinRoom { roomId := "R3b" } "A").1 "A").1.players1 = some "A" ∧
     (joinRoom (joinRoom { roomId := "R3b" } "A").1 "A").1.players2 = some "A") := by
  constructor
  · constructor
    · decide
    · decide
  · constructor
    · decide
    · decide

/-- C3 amended: at every observation point, at most 2 slots are occupied
(the slot structure is a fixed pair) and the host pointer is unset or
names an occupant, and both facts are preserved by every handler and by
the timer callback; however the ready set may contain non-occupant
handles (toggle_ready performs no occupancy check) and one handle may
occupy both slots (join_room does not reject a handle already seated),
as the counterexample shows. -/
theorem session_invariants_preserved (r : GameRoom) (hinv : hostInv r) :
    (occupiedHandles r).length ≤ 2 ∧
    (∀ s, hostInv (joinRoom r s).1) ∧
    (∀ s, hostInv (handleDisconnect r s).1) ∧
    (∀ catalog pick s b, hostInv ((toggleReady catalog pick r s b).room)) ∧
    (∀ s payload, hostInv ((submitSettings r s payload).1)) ∧
    (∀ catalog pick s, hostInv ((restartGame catalog pick r s).room)) ∧
    hostInv ((tick r).room) ∧
    (∀ sender g p, hostInv ((sendGuess r sender g p).room)) := by
  refine ⟨?_, ?_, ?_, ?_, ?_, ?_, ?_, ?_⟩
  · unfold occupiedHandles
    cases r.players1 <;> cases r.players2 <;> simp
  · intro s
    exact hostInv_joinRoom r s hinv
  · intro s
    exact hostInv_handleDisconnect r s hinv
  · intro catalog pick s b
    obtain ⟨h1, h2, h3⟩ := toggleReady_fields catalog pick r s b
    exact hostInv_of_fields h1 h2 h3 hinv
  · intro s payload
    obtain ⟨h1, h2, h3⟩ := submitSettings_fields r s payload
    exact hostInv_of_fields h1 h2 h3 hinv
  · intro catalog pick s
    obtain ⟨h1, h2, h3⟩ := restartGame_fields catalog pick r s
    exact hostInv_of_fields h1 h2 h3 hinv
  · obtain ⟨h1, h2, h3⟩ := tick_fields r
    exact hostInv_of_fields h1 h2 h3 hinv
  · intro sender g p
    obtain ⟨h1, h2, h3⟩ := sendGuess_fields r sender g p
    exact hostInv_of_fields h1 h2 h3 hinv

/-- C3 witness: the preserved invariants instantiated on a fresh room. -/
theorem session_invariants_witness :
    (occupiedHandles (joinRoom c3WRoom "A").1).length ≤ 2 :=
  (session_invariants_preserved (joinRoom c3WRoom "A").1
    (hostInv_joinRoom c3WRoom "A" (by intro x hx; simp [c3WRoom] at hx))).1

theorem filter_master_length_eq_count (ec : EnableClues) :
    (DEFAULT_CLUE_SCHEDULE.filter (fun c => ec.get c.1)).length = countEnabledClues ec := by
  obtain ⟨b1, b2, b3, b4, b5, b6, b7, b8⟩ := ec
  cases b1 <;> cases b2 <;> cases b3 <;> cases b4 <;>
    cases b5 <;> cases b6 <;> cases b7 <;> cases b8 <;> rfl

theorem computeClueSchedule_length (s : Settings) :
    (computeClueSchedule s).length = min (countEnabledClues s.enableClues) s.cluesPerRound := by
  unfold computeClueSchedule
  rw [List.length_take, filter_master_length_eq_count, Nat.min_comm]

/-- C4 counterexample: a payload with one enabled clue key but
cluesPerRound 0 derives an empty clue schedule, yet submit_settings
accepts it (no error, config replaced), so an accepted config does not
guarantee a non-empty schedule. -/
theorem empty_schedule_config_accepted :
    submitSettings c4Room "A" (some zeroSliceSettings) =
      (c4Room.setSettings zeroSliceSettings, [Emit.settingsUpdated]) ∧
    (c4Room.setSettings zeroSliceSettings).clueSchedule = [] ∧
    (c4Room.setSettings zeroSliceSettings).settings = some zeroSliceSettings := by
  refine ⟨by decide, by decide, by decide⟩

/-- C4 amended: submit_settings rejects, with an error to the sender and
the room unchanged, exactly the payloads with no enabled clue key or an
empty continent set; an accepted payload replaces the config, and the
derived schedule is non-empty precisely when cluesPerRound is at least 1
(a payload with enabled keys but cluesPerRound 0 is accepted and yields
an empty schedule). -/
theorem submit_settings_validation (r : GameRoom) (s : SocketId) (st : Settings)
    (hhost : r.host = some s) :
    ((countEnabledClues st.enableClues = 0 ∨ st.enabledContinents = []) →
       (submitSettings r s (some st)).1 = r ∧
       ∃ m, (submitSettings r s (some st)).2 = [Emit.errorMessage s m]) ∧
    (countEnabledClues st.enableClues ≥ 1 → st.enabledContinents ≠ [] →
       (submitSettings r s (some st)).1 = r.setSettings st ∧
       (submitSettings r s (some st)).2 = [Emit.settingsUpdated] ∧
       ((r.setSettings st).clueSchedule ≠ [] ↔ 1 ≤ st.cluesPerRound)) := by
  constructor
  · intro hbad
    unfold submitSettings
    rw [if_neg (by simp [hhost])]
    dsimp only
    rcases hbad with hz | hc
    · rw [if_pos (by omega)]
      exact ⟨rfl, _, rfl⟩
    · by_cases hcount : countEnabledClues st.enableClues < 1
      · rw [if_pos hcount]
        exact ⟨rfl, _, rfl⟩
      · rw [if_neg hcount, if_pos (by rw [hc]; rfl)]
        exact ⟨rfl, _, rfl⟩
  · intro h1 h2
    unfold submitSettings
    rw [if_neg (by simp [hhost])]
    dsimp only
    rw [if_neg (by omega), if_neg (by simpa using h2)]
    refine ⟨rfl, rfl, ?_⟩
    have hlen := computeClueSchedule_length st
    have hsched : (r.setSettings st).clueSchedule = computeClueSchedule st := rfl
    rw [hsched]
    constructor
    · intro hne
      have hpos : 0 < (computeClueSchedule st).length := List.length_pos.mpr hne
      rw [hlen] at hpos
      omega
    · intro hge
      apply List.ne_nil_of_length_pos
      rw [hlen]
      omega

/-- C4 witness: a valid payload with one enabled key and cluesPerRound 2
is accepted and yields a non-empty schedule. -/
theorem submit_settings_validation_witness :
    (c4Room.setSettings c4WSettings).clueSchedule ≠ [] :=
  ((submit_settings_validation c4Room "A" c4WSettings (by decide)).2
    (by decide) (by decide)).2.2.mpr (by decide)

/-- C5 counterexample: handle C occupies no slot of the room, yet
toggle_ready from C mutates the ready set (the session state changes),
so setReady is not a silent no-op for non-occupants. -/
theorem non_occupant_toggle_ready_mutates :
    ((toggleReady demoCatalog 0 c5Room "C" true).room).readyPlayers = ["C"] ∧
    (toggleReady demoCatalog 0 c5Room "C" true).room ≠ c5Room ∧
    "C" ∉ occupiedHandles c5Room := by
  refine ⟨by decide, by decide, by decide⟩

/-- C5 amended: toggle_ready applies setReady for every connection
handle, occupant or not: whenever the config-required guard does not
trigger and the resulting ready state does not start a round, the room
becomes exactly setReady of the old room, and readying up places the
handle in the ready set even when it occupies no slot. -/
theorem toggle_ready_ignores_occupancy (catalog : List Country) (pick : Nat)
    (r : GameRoom) (s : SocketId) (b : Bool)
    (hguard : ¬(r.host = some s ∧ r.settings = none))
    (hnostart : (r.setReady s b).areAllReady = false)
    (hnotocc : s ∉ occupiedHandles r) :
    (toggleReady catalog pick r s b).room = r.setReady s b ∧
    (b = true → s ∈ ((toggleReady catalog pick r s b).room).readyPlayers) := by
  have hres : (toggleReady catalog pick r s b).room = r.setReady s b := by
    unfold toggleReady
    rw [if_neg hguard]
    dsimp only
    rw [hnostart]
    simp [HResult.room]
  refine ⟨hres, ?_⟩
  intro hb
  rw [hres, hb]
  unfold GameRoom.setReady
  simp only [if_true, ite_true]
  exact mem_addReady r.readyPlayers s

/-- C5 witness: a stranger readying up in a full two-player room with
config set lands in the ready set. -/
theorem toggle_ready_ignores_occupancy_witness :
    "C" ∈ ((toggleReady demoCatalog 0 c5WRoom "C" true).room).readyPlayers :=
  (toggle_ready_ignores_occupancy demoCatalog 0 c5WRoom "C" true
    (by decide) (by decide) (by decide)).2 rfl

/-- C6 counterexample: a round whose schedule is exhausted while the
max-rounds cap is reached resolves as a final draw but leaves the round
counter unchanged, refuting that the counter is incremented exactly once
in both the final and the non-final case. -/
theorem final_draw_does_not_increment_round :
    (tick c6Room).events =
      [Emit.timerUpdate 0,
       Emit.gameOver "draw" (some ⟨"France", "Europe"⟩) ⟨0, 0⟩ true] ∧
    ((tick c6Room).room).currentRound = 1 ∧ c6Room.currentRound = 1 := by
  refine ⟨by decide, by decide, by decide⟩

/-- C6 amended: when an active round decrements its timer to 0 with no
clue left in the schedule, the round resolves as a draw and the game
stops; the round counter is incremented exactly once in the non-final
case, and left unchanged when a max-rounds cap is configured and
reached (the final case). -/
theorem exhausted_schedule_resolves_draw (r : GameRoom) (s : Settings)
    (hact : r.gameActive = true) (hset : r.settings = some s)
    (ht : r.timer - 1 ≤ 0)
    (hcl : ¬((r.clueIndex : Int) < (r.clueSchedule.length : Int) - 1)) :
    if s.maxRounds ≠ 0 ∧ r.currentRound ≥ s.maxRounds then
      tick r = .ok { r with timer := r.timer - 1, gameActive := false, interval := false }
        [Emit.timerUpdate (r.timer - 1),
         Emit.gameOver "draw" r.currentCountry r.scores true]
    else
      tick r = .ok { r with timer := r.timer - 1, currentRound := r.currentRound + 1,
                            gameActive := false, interval := false }
        [Emit.timerUpdate (r.timer - 1),
         Emit.gameOver "draw" r.currentCountry r.scores false] := by
  by_cases hfin : s.maxRounds ≠ 0 ∧ r.currentRound ≥ s.maxRounds
  · rw [if_pos hfin]
    unfold tick
    rw [hact]
    dsimp only
    rw [if_neg (by simp), if_pos ht, if_neg hcl, hset]
    dsimp only
    rw [if_pos hfin]
    simp [stopGame_eq]
  · rw [if_neg hfin]
    unfold tick
    rw [hact]
    dsimp only
    rw [if_neg (by simp), if_pos ht, if_neg hcl, hset]
    dsimp only
    rw [if_neg hfin]
    simp [stopGame_eq]

/-- C6 witness: the non-final instantiation, with no cap configured. -/
theorem exhausted_schedule_resolves_draw_witness :
    tick c6WRoom =
      .ok { c6WRoom with timer := 0, currentRound := 2,
                         gameActive := false, interval := false }
        [Emit.timerUpdate 0,
         Emit.gameOver "draw" (some ⟨"France", "Europe"⟩) ⟨0, 0⟩ false] := by
  have h := exhausted_schedule_resolves_draw c6WRoom ⟨oneClueOn, ["All"], 1, 15, 0⟩
    (by decide) (by decide) (by decide) (by decide)
  rw [if_neg (by decide)] at h
  exact h

/-- C7: send_guess is a no-op on an inactive session; on an active one
both the guess and the target country name are normalized by
lowercasing then deleting every character that is not a lowercase
letter or digit, the guess wins exactly when the normalized strings are
equal, a win increments the score of the slot named by the payload and
stops the round with a single game_over broadcast, and a miss delivers
the raw guess to the other room members only (the submitter is excluded
from the opponent_guess emission) with no state change. -/
theorem guess_resolution (r : GameRoom) (sender : SocketId) (g : String) (p : Nat) :
    (r.gameActive = false → sendGuess r sender g p = .ok r []) ∧
    (∀ c, r.gameActive = true → r.currentCountry = some c →
      (normalizeStr g = normalizeStr c.country →
        sendGuess r sender g p =
          .ok { r with
                scores := if p = 1 then ⟨r.scores.p1 + 1, r.scores.p2⟩
                          else ⟨r.scores.p1, r.scores.p2 + 1⟩,
                gameActive := false, interval := false }
            [Emit.gameOver (if p = 1 then "player1" else "player2") r.currentCountry
               (if p = 1 then ⟨r.scores.p1 + 1, r.scores.p2⟩
                else ⟨r.scores.p1, r.scores.p2 + 1⟩) false]) ∧
      (normalizeStr g ≠ normalizeStr c.country →
        sendGuess r sender g p = .ok r [Emit.opponentGuess sender g])) := by
  constructor
  · intro hinact
    unfold sendGuess
    rw [hinact]
    simp
  · intro c hact hc
    constructor
    · intro hm
      unfold sendGuess
      rw [hact]
      dsimp only
      rw [if_neg (by simp), hc]
      dsimp only
      rw [if_pos hm]
      by_cases hp : p = 1
      · subst hp
        simp [stopGame_eq]
      · simp [hp, stopGame_eq]
    · intro hm
      unfold sendGuess
      rw [hact]
      dsimp only
      rw [if_neg (by simp), hc]
      dsimp only
      rw [if_neg hm]

/-- C7 witness: FRANCE! matches France after normalization; player 1
scores and the round stops; an inactive room ignores the guess. -/
theorem guess_resolution_witness :
    sendGuess c7Room "B" "FRANCE!" 1 =
      .ok { c7Room with scores := ⟨1, 0⟩, gameActive := false, interval := false }
        [Emit.gameOver "player1" (some ⟨"France", "Europe"⟩) ⟨1, 0⟩ false] := by
  have h := ((guess_resolution c7Room "B" "FRANCE!" 1).2
    ⟨"France", "Europe"⟩ rfl rfl).1 (by decide)
  exact h

/-- C8: join fails with the room-full error exactly when both slots are
occupied; otherwise the joiner is seated in the lowest-numbered empty
slot and told that slot number, an unset host pointer is claimed by the
joiner, and an existing host is never displaced. -/
theorem join_spec (r : GameRoom) (s : SocketId) :
    ((r.players1.isSome ∧ r.players2.isSome) →
       joinRoom r s = (r, [Emit.errorMessage s "Room is full!"])) ∧
    (¬(r.players1.isSome ∧ r.players2.isSome) →
       (r.players1 = none →
          (joinRoom r s).1.players1 = some s ∧ (joinRoom r s).1.players2 = r.players2 ∧
          ∃ b es, (joinRoom r s).2 = Emit.playerAssigned s 1 b :: es) ∧
       (∀ a, r.players1 = some a →
          (joinRoom r s).1.players2 = some s ∧ (joinRoom r s).1.players1 = some a ∧
          ∃ b es, (joinRoom r s).2 = Emit.playerAssigned s 2 b :: es) ∧
       (r.host = none → (joinRoom r s).1.host = some s) ∧
       (∀ h, r.host = some h → (joinRoom r s).1.host = some h)) := by
  cases hp1 : r.players1 <;> cases hp2 : r.players2 <;> cases hh : r.host <;>
    simp [joinRoom, GameRoom.addPlayer, GameRoom.getPlayerCount, MAX_PLAYERS, hp1, hp2, hh]

/-- C8 witness: joining a half-full room seats the joiner in slot 2 and
leaves the existing host in place. -/
theorem join_spec_witness :
    (joinRoom c8Room "B").1.players2 = some "B" ∧
    (joinRoom c8Room "B").1.host = some "A" := by
  have h := (join_spec c8Room "B").2 (by decide)
  exact ⟨(h.2.1 "A" rfl).1, h.2.2.2 "A" rfl⟩

/-- C9: for every configuration the derived clue schedule has length
min(enabled key count, configured clue count), and it is a sublist of
the fixed 8-element master list, so its descriptors appear in master
order independently of how the enabled set was produced. -/
theorem clue_schedule_shape (s : Settings) :
    (computeClueSchedule s).length = min (countEnabledClues s.enableClues) s.cluesPerRound ∧
    (computeClueSchedule s).Sublist DEFAULT_CLUE_SCHEDULE := by
  refine ⟨computeClueSchedule_length s, ?_⟩
  exact (List.take_sublist _ _).trans (List.filter_sublist _)

/-- C10: on a winning guess the incremented score is chosen solely by
the playerNum payload field (p1 for 1, p2 for anything else),
independent of the slots, the host pointer, and which slot, if any, the
sending connection occupies. -/
theorem score_follows_payload (r : GameRoom) (sender : SocketId) (g : String) (p : Nat)
    (c : Country) (hact : r.gameActive = true) (hc : r.currentCountry = some c)
    (hm : normalizeStr g = normalizeStr c.country) :
    ((sendGuess r sender g p).room).scores =
      (if p = 1 then ⟨r.scores.p1 + 1, r.scores.p2⟩ else ⟨r.scores.p1, r.scores.p2 + 1⟩) ∧
    (∀ a b h, ((sendGuess { r with players1 := a, players2 := b, host := h }
        sender g p).room).scores =
      (if p = 1 then ⟨r.scores.p1 + 1, r.scores.p2⟩ else ⟨r.scores.p1, r.scores.p2 + 1⟩)) := by
  have key : ∀ r' : GameRoom, r'.gameActive = true → r'.currentCountry = some c →
      ((sendGuess r' sender g p).room).scores =
        (if p = 1 then ⟨r'.scores.p1 + 1, r'.scores.p2⟩
         else ⟨r'.scores.p1, r'.scores.p2 + 1⟩ : Scores) := by
    intro r' ha' hc'
    unfold sendGuess
    rw [ha']
    dsimp only
    rw [if_neg (by simp), hc']
    dsimp only
    rw [if_pos hm]
    by_cases hp : p = 1
    · subst hp
      simp [stopGame_eq, HResult.room]
    · simp [hp, stopGame_eq, HResult.room]
  constructor
  · exact key r hact hc
  · intro a b h
    exact key { r with players1 := a, players2 := b, host := h } hact hc

/-- C10 witness: the sender Z occupies no slot, yet the payload field 1
credits slot 1. -/
theorem score_follows_payload_witness :
    ((sendGuess c10Room "Z" "france" 1).room).scores = ⟨1, 0⟩ ∧
    "Z" ∉ occupiedHandles c10Room := by
  refine ⟨?_, by decide⟩
  exact (score_follows_payload c10Room "Z" "france" 1 ⟨"France", "Europe"⟩
    rfl rfl (by decide)).1
